import Mathlib

/-!
Verification of the Microsoft Graph MCP server (src/server.py).

The server is a raw ASGI application (`mcp_asgi_app`) that dispatches
JSON-RPC requests (`initialize`, `tools/list`, `tools/call`) delivered by
HTTP POST to `/mcp`, serves a single SSE `endpoint` event on GET, and
routes `tools/call` to five Azure-AD user-management tools (`call_tool`).

Embedding conventions:
- JSON values are modeled by the inductive `Json` (integers only; the
  server never produces floats on its own paths).
- Python dicts are association lists in insertion order with distinct keys
  (the shape `json.loads` / dict literals produce).
- Python exceptions are modeled by `Except String`, carrying `str(e)`.
  `str(KeyError(k))` is the quoted key.  Messages of TypeError /
  AttributeError raised on non-dict subscripting are approximated by a
  fixed text (no claim depends on them).
- External library calls (Microsoft Graph via `graph_client`, `json.loads`,
  `os.urandom` feeding `uuid.uuid4`) are parameters of the embedding;
  `json.dumps` and the string formatting of `uuid.uuid4` are implemented.
-/

/-- JSON values as handled by the Python code (ints only, no floats). -/
inductive Json where
  | null : Json
  | bool : Bool → Json
  | num : Int → Json
  | str : String → Json
  | arr : List Json → Json
  | obj : List (String × Json) → Json
deriving BEq

/-- A single-quote character, written via its code point so that string
literals in this file stay free of bare apostrophes. -/
def apos : String := (Char.ofNat 39).toString

/-- Wrap a string in single quotes (Python `repr` of a plain string,
`str(KeyError(key))`). -/
def quoteS (s : String) : String := apos ++ s ++ apos

/-- First-match association-list lookup: Python `dict[k]` / `dict.get(k)`
on dicts (keys are distinct in dicts produced by `json.loads`). -/
def lookupKey : List (String × Json) → String → Option Json
  | [], _ => none
  | (k, v) :: rest, key => if k == key then some v else lookupKey rest key

/-- Python `key in dict`. -/
def keyMem (kvs : List (String × Json)) (key : String) : Bool :=
  kvs.any (fun p => p.1 == key)

/-- Python subscript access `j[k]`: KeyError (whose `str` is the quoted
key) when the key is absent; TypeError (message approximated) when `j` is
not a mapping. -/
def pyGetItem (j : Json) (k : String) : Except String Json :=
  match j with
  | Json.obj kvs =>
    match lookupKey kvs k with
    | some v => Except.ok v
    | none => Except.error (quoteS k)
  | _ => Except.error "string indices must be integers"

/-- Python `j.get(k, default)`: AttributeError (message approximated) when
`j` is not a mapping. -/
def pyDictGetD (j : Json) (k : String) (default : Json) : Except String Json :=
  match j with
  | Json.obj kvs => Except.ok ((lookupKey kvs k).getD default)
  | _ => Except.error "object has no attribute get"

/-- Python `j.get(k)` (default `None`, rendered as JSON null). -/
def pyDictGetOpt (j : Json) (k : String) : Except String Json :=
  match j with
  | Json.obj kvs => Except.ok ((lookupKey kvs k).getD Json.null)
  | _ => Except.error "object has no attribute get"

mutual

/-- Python `str()` of a decoded JSON value (used by f-string interpolation
in the server).  `repr` of nested strings does not model escaping of
quotes/backslashes (no code path in the claims reaches it). -/
def pyStr : Json → String
  | Json.null => "None"
  | Json.bool true => "True"
  | Json.bool false => "False"
  | Json.num n => toString n
  | Json.str s => s
  | Json.arr l => "[" ++ pyReprList l ++ "]"
  | Json.obj kvs => "\x7b" ++ pyReprObj kvs ++ "\x7d"

/-- Python `repr()` of a decoded JSON value. -/
def pyRepr : Json → String
  | Json.null => "None"
  | Json.bool true => "True"
  | Json.bool false => "False"
  | Json.num n => toString n
  | Json.str s => quoteS s
  | Json.arr l => "[" ++ pyReprList l ++ "]"
  | Json.obj kvs => "\x7b" ++ pyReprObj kvs ++ "\x7d"

/-- Comma-joined `repr`s of list elements. -/
def pyReprList : List Json → String
  | [] => ""
  | [x] => pyRepr x
  | x :: xs => pyRepr x ++ ", " ++ pyReprList xs

/-- Comma-joined `repr`s of dict items. -/
def pyReprObj : List (String × Json) → String
  | [] => ""
  | [(k, v)] => quoteS k ++ ": " ++ pyRepr v
  | (k, v) :: xs => quoteS k ++ ": " ++ pyRepr v ++ ", " ++ pyReprObj xs

end

/-- Lower-case hexadecimal digit table lookup (total: out-of-range indices
never arise, values are always reduced mod 16 first). -/
def hexDigit (n : Nat) : Char :=
  ("0123456789abcdef").data.getD n '0'

/-- Four lower-case hex digits of `n % 65536` (`\uXXXX` escapes, `%04x`). -/
def hex4 (n : Nat) : List Char :=
  [hexDigit (n / 4096 % 16), hexDigit (n / 256 % 16),
   hexDigit (n / 16 % 16), hexDigit (n % 16)]

/-- Escape of one character under `json.dumps` defaults (`ensure_ascii`):
`"` and `\` and the C0 shorthands get two-character escapes, everything
outside the printable ASCII range becomes `\uXXXX` (surrogate pairs above
the BMP), and printable ASCII passes through. -/
def escapeChar (c : Char) : List Char :=
  let n := c.toNat
  if c == Char.ofNat 34 then [Char.ofNat 92, Char.ofNat 34]
  else if c == Char.ofNat 92 then [Char.ofNat 92, Char.ofNat 92]
  else if n == 10 then [Char.ofNat 92, 'n']
  else if n == 13 then [Char.ofNat 92, 'r']
  else if n == 9 then [Char.ofNat 92, 't']
  else if n == 8 then [Char.ofNat 92, 'b']
  else if n == 12 then [Char.ofNat 92, 'f']
  else if 32 ≤ n && n ≤ 126 then [c]
  else if n < 65536 then Char.ofNat 92 :: 'u' :: hex4 n
  else
    (Char.ofNat 92 :: 'u' :: hex4 (55296 + (n - 65536) / 1024)) ++
    (Char.ofNat 92 :: 'u' :: hex4 (56320 + (n - 65536) % 1024))

/-- Character-wise escape of a string body. -/
def escList : List Char → List Char
  | [] => []
  | c :: cs => escapeChar c ++ escList cs

/-- `json.dumps` escaping of a string body (without the surrounding
double quotes). -/
def jsonEscape (s : String) : String := String.mk (escList s.data)

/-- The double-quote character as a string. -/
def dq : String := (Char.ofNat 34).toString

mutual

/-- `json.dumps(j)` with default arguments: separators `", "` and `": "`,
`ensure_ascii=True`. -/
def dumps : Json → String
  | Json.null => "null"
  | Json.bool true => "true"
  | Json.bool false => "false"
  | Json.num n => toString n
  | Json.str s => dq ++ jsonEscape s ++ dq
  | Json.arr l => "[" ++ dumpsList l ++ "]"
  | Json.obj kvs => "\x7b" ++ dumpsObj kvs ++ "\x7d"

/-- Array elements joined by `", "`. -/
def dumpsList : List Json → String
  | [] => ""
  | [x] => dumps x
  | x :: xs => dumps x ++ ", " ++ dumpsList xs

/-- Object items `"k": v` joined by `", "`. -/
def dumpsObj : List (String × Json) → String
  | [] => ""
  | [(k, v)] => dq ++ jsonEscape k ++ dq ++ ": " ++ dumps v
  | (k, v) :: xs => dq ++ jsonEscape k ++ dq ++ ": " ++ dumps v ++ ", " ++ dumpsObj xs

end

/-- `n` spaces. -/
def spaces (n : Nat) : String := String.mk (List.replicate n ' ')

mutual

/-- `json.dumps(j, indent=2)` at enclosing indentation `ind` (item
separator `,\n`, key separator `": "`, matching Python). -/
def dumpsInd (ind : Nat) : Json → String
  | Json.arr [] => "[]"
  | Json.arr l =>
    "[\n" ++ dumpsIndList (ind + 2) l ++ "\n" ++ spaces ind ++ "]"
  | Json.obj [] => "\x7b\x7d"
  | Json.obj kvs =>
    "\x7b\n" ++ dumpsIndObj (ind + 2) kvs ++ "\n" ++ spaces ind ++ "\x7d"
  | j => dumps j

/-- Indented array elements joined by `,\n`. -/
def dumpsIndList (ind : Nat) : List Json → String
  | [] => ""
  | [x] => spaces ind ++ dumpsInd ind x
  | x :: xs => spaces ind ++ dumpsInd ind x ++ ",\n" ++ dumpsIndList ind xs

/-- Indented object items joined by `,\n`. -/
def dumpsIndObj (ind : Nat) : List (String × Json) → String
  | [] => ""
  | [(k, v)] => spaces ind ++ dq ++ jsonEscape k ++ dq ++ ": " ++ dumpsInd ind v
  | (k, v) :: xs =>
    spaces ind ++ dq ++ jsonEscape k ++ dq ++ ": " ++ dumpsInd ind v ++ ",\n" ++
    dumpsIndObj ind xs

end

/-- Python `needle in hay` on strings, at the character-list level:
some tail of `hay` starts with `needle`. -/
def containsAux (needle : List Char) : List Char → Bool
  | [] => needle.isEmpty
  | c :: t => needle.isPrefixOf (c :: t) || containsAux needle t

/-- Python substring test `needle in hay`. -/
def containsSub (hay needle : String) : Bool :=
  containsAux needle.data hay.data

example : containsSub "abc Request_ResourceNotFound xyz" "Request_ResourceNotFound" = true := by decide
example : containsSub "abc" "bd" = false := by decide
example : dumps (Json.obj [("a", Json.num 1), ("b", Json.str "x")]) = "\x7b" ++ dq ++ "a" ++ dq ++ ": 1, " ++ dq ++ "b" ++ dq ++ ": " ++ dq ++ "x" ++ dq ++ "\x7d" := by decide

/-- `mcp.types.TextContent` as used by the server (always `type="text"`). -/
structure TextContent where
  type : String
  text : String
deriving BEq

/-- Projection of a directory user returned by the Graph SDK: the seven
attributes the server reads (`user.id`, ..., `user.account_enabled`).
Unset SDK attributes are `None`. -/
structure GraphUser where
  id : Option String
  user_principal_name : Option String
  display_name : Option String
  mail : Option String
  job_title : Option String
  department : Option String
  account_enabled : Option Bool

/-- The `msgraph` `User` object built by `create_user` (lines 114-123):
raw argument values are assigned unchecked, `account_enabled = True`, and
the password profile forces a change at next sign-in. -/
structure NewUser where
  user_principal_name : Json
  display_name : Json
  mail_nickname : Json
  account_enabled : Bool
  password : Json
  force_change_password_next_sign_in : Bool

/-- The `msgraph` `User` object built by `update_user` (lines 147-153):
a fresh object whose three optional attributes start unset (`none`); only
attributes assigned from the input arguments become `some`.  Unset
attributes are omitted from the outgoing PATCH by the SDK. -/
structure UserUpdate where
  display_name : Option Json
  job_title : Option Json
  department : Option Json
deriving BEq

/-- The directory service (`graph_client`), abstracted as response
functions: each models one awaited SDK call, returning the value or the
`str()` of the exception it raises. `list_users_top` returns `none` when
the page or its `value` is falsy, mirroring `if users_page and
users_page.value:`. -/
structure GraphClient where
  post_user : NewUser → Except String GraphUser
  get_user : Json → Except String GraphUser
  patch_user : Json → UserUpdate → Except String Unit
  delete_user : Json → Except String Unit
  list_users_top : Json → Except String (Option (List GraphUser))

/-- A tool descriptor (`mcp.types.Tool`). -/
structure Tool where
  name : String
  description : String
  inputSchema : Json

/-- Helper for the schemas: a string-typed property with a description. -/
def strProp (descr : String) : Json :=
  Json.obj [("type", Json.str "string"), ("description", Json.str descr)]

/-- `list_tools()` (lines 39-103): the five static tool descriptors. -/
def list_tools : List Tool :=
  [{ name := "create_user",
     description := "Create a new user in Azure AD",
     inputSchema := Json.obj [
       ("type", Json.str "object"),
       ("properties", Json.obj [
         ("userPrincipalName", strProp ("User" ++ apos ++ "s email address")),
         ("displayName", strProp ("User" ++ apos ++ "s display name")),
         ("mailNickname", strProp "Mail alias"),
         ("password", strProp "Initial password")]),
       ("required", Json.arr [Json.str "userPrincipalName", Json.str "displayName",
         Json.str "mailNickname", Json.str "password"])] },
   { name := "read_user",
     description := "Get user information from Azure AD",
     inputSchema := Json.obj [
       ("type", Json.str "object"),
       ("properties", Json.obj [
         ("userId", strProp "User ID or userPrincipalName")]),
       ("required", Json.arr [Json.str "userId"])] },
   { name := "update_user",
     description := "Update an existing user in Azure AD",
     inputSchema := Json.obj [
       ("type", Json.str "object"),
       ("properties", Json.obj [
         ("userId", strProp "User ID or userPrincipalName"),
         ("displayName", strProp "New display name"),
         ("jobTitle", strProp "Job title"),
         ("department", strProp "Department")]),
       ("required", Json.arr [Json.str "userId"])] },
   { name := "delete_user",
     description := "Delete a user from Azure AD",
     inputSchema := Json.obj [
       ("type", Json.str "object"),
       ("properties", Json.obj [
         ("userId", strProp "User ID or userPrincipalName")]),
       ("required", Json.arr [Json.str "userId"])] },
   { name := "list_users",
     description := "List users in the Azure AD tenant",
     inputSchema := Json.obj [
       ("type", Json.str "object"),
       ("properties", Json.obj [
         ("top", Json.obj [("type", Json.str "integer"),
           ("description", Json.str "Number of users to return (default 10, max 999)"),
           ("default", Json.num 10)])])] }]

/-- Is this JSON value the given Python string (Python `==` against a
string literal)? -/
def jsonIsStr (j : Json) (s : String) : Bool :=
  match j with
  | Json.str t => t == s
  | _ => false

/-- `Optional[str]` rendered into JSON (`None` becomes null). -/
def optStrJson : Option String → Json
  | none => Json.null
  | some s => Json.str s

/-- `Optional[bool]` rendered into JSON. -/
def optBoolJson : Option Bool → Json
  | none => Json.null
  | some b => Json.bool b

/-- f-string interpolation of an `Optional[str]` attribute. -/
def pyStrOptS : Option String → String
  | none => "None"
  | some s => s

/-- The `User` update object construction of `update_user` (lines
147-153): start from a fresh unset object and assign exactly the
attributes whose keys occur in the arguments (`if k in arguments:
user.attr = arguments[k]`). -/
def updateFromArgs (args : List (String × Json)) : UserUpdate :=
  let u0 : UserUpdate := { display_name := none, job_title := none, department := none }
  let u1 := if keyMem args "displayName" then
    { u0 with display_name := lookupKey args "displayName" } else u0
  let u2 := if keyMem args "jobTitle" then
    { u1 with job_title := lookupKey args "jobTitle" } else u1
  if keyMem args "department" then
    { u2 with department := lookupKey args "department" } else u2

/-- The membership tests of `update_user` require `arguments` to be a
mapping; on anything else Python raises (message approximated). -/
def asObj (j : Json) : Except String (List (String × Json)) :=
  match j with
  | Json.obj kvs => Except.ok kvs
  | _ => Except.error "argument is not a mapping"

/-- The body of the `try:` block of `call_tool` (lines 109-191): the five
tool branches and the unknown-tool fallback.  An `Except.error` is an
exception reaching the `except` clause. -/
def call_tool_inner (gc : GraphClient) (name arguments : Json) :
    Except String (List TextContent) :=
  if jsonIsStr name "create_user" then do
    let upn ← pyGetItem arguments "userPrincipalName"
    let dn ← pyGetItem arguments "displayName"
    let mn ← pyGetItem arguments "mailNickname"
    let pw ← pyGetItem arguments "password"
    let user : NewUser :=
      { user_principal_name := upn, display_name := dn, mail_nickname := mn,
        account_enabled := true, password := pw,
        force_change_password_next_sign_in := true }
    let result ← gc.post_user user
    Except.ok [⟨"text",
      "User created successfully: " ++ pyStrOptS result.id ++ "\n" ++
      dumpsInd 0 (Json.obj [("id", optStrJson result.id),
        ("userPrincipalName", optStrJson result.user_principal_name),
        ("displayName", optStrJson result.display_name)])⟩]
  else if jsonIsStr name "read_user" then do
    let uid ← pyGetItem arguments "userId"
    let user ← gc.get_user uid
    Except.ok [⟨"text", dumpsInd 0 (Json.obj [
      ("id", optStrJson user.id),
      ("userPrincipalName", optStrJson user.user_principal_name),
      ("displayName", optStrJson user.display_name),
      ("mail", optStrJson user.mail),
      ("jobTitle", optStrJson user.job_title),
      ("department", optStrJson user.department),
      ("accountEnabled", optBoolJson user.account_enabled)])⟩]
  else if jsonIsStr name "update_user" then do
    let args ← asObj arguments
    let u := updateFromArgs args
    let uid ← pyGetItem arguments "userId"
    let _ ← gc.patch_user uid u
    Except.ok [⟨"text", "User " ++ pyStr uid ++ " updated successfully"⟩]
  else if jsonIsStr name "delete_user" then do
    let uid ← pyGetItem arguments "userId"
    let _ ← gc.delete_user uid
    Except.ok [⟨"text", "User " ++ pyStr uid ++ " deleted successfully"⟩]
  else if jsonIsStr name "list_users" then do
    let top ← pyDictGetD arguments "top" (Json.num 10)
    let page ← gc.list_users_top top
    let user_list := match page with
      | none => []
      | some users => users.map (fun u => Json.obj [
          ("id", optStrJson u.id),
          ("userPrincipalName", optStrJson u.user_principal_name),
          ("displayName", optStrJson u.display_name),
          ("mail", optStrJson u.mail)])
    Except.ok [⟨"text", dumpsInd 0 (Json.obj [
      ("users", Json.arr user_list),
      ("count", Json.num user_list.length)])⟩]
  else
    Except.ok [⟨"text", "Unknown tool: " ++ pyStr name⟩]

/-- `call_tool` (lines 106-203): run the tool body and classify any
exception by substring matching on its message (lines 193-203).  The
remaining `Except.error` case is the one uncaught exception the handler
itself can raise: `arguments.get` on a non-mapping inside the not-found
branch. -/
def call_tool (gc : GraphClient) (name arguments : Json) :
    Except String (List TextContent) :=
  match call_tool_inner gc name arguments with
  | Except.ok r => Except.ok r
  | Except.error e =>
    if containsSub e "Request_ResourceNotFound" then
      match pyDictGetD arguments "userId" (Json.str "unknown") with
      | Except.error e2 => Except.error e2
      | Except.ok uid => Except.ok [⟨"text",
          "Error: User " ++ quoteS (pyStr uid) ++
          " not found in Azure AD. Please verify the user ID or userPrincipalName."⟩]
    else if containsSub e "Request_BadRequest" then
      Except.ok [⟨"text", "Error: Invalid request. Please check the parameters: " ++ e⟩]
    else if containsSub e "Authorization_RequestDenied" || containsSub e "Forbidden" then
      Except.ok [⟨"text",
        "Error: Permission denied. Ensure the app has the required Graph API permissions (User.ReadWrite.All)."⟩]
    else
      Except.ok [⟨"text", "Error: " ++ e⟩]

/-- Python `None`-vs-value of `dict.get` rendered into JSON (`None`
serializes as null). -/
def optJson : Option Json → Json
  | none => Json.null
  | some v => v

/-- f-string interpolation of a `dict.get` result (`None` prints as
`None`). -/
def pyStrOpt : Option Json → String
  | none => "None"
  | some v => pyStr v

/-- Does `request_data.get("method")` equal this string? -/
def optIsStr (m : Option Json) (s : String) : Bool :=
  match m with
  | some (Json.str t) => t == s
  | _ => false

/-- The fixed `initialize` result payload (lines 350-359). -/
def initializeResult : Json :=
  Json.obj [
    ("protocolVersion", Json.str "2025-06-18"),
    ("capabilities", Json.obj [("tools", Json.obj [])]),
    ("serverInfo", Json.obj [
      ("name", Json.str "microsoft-graph-mcp"),
      ("version", Json.str "1.0.0")])]

/-- One tool rendered for the `tools/list` result (lines 371-378). -/
def toolJson (t : Tool) : Json :=
  Json.obj [("name", Json.str t.name), ("description", Json.str t.description),
    ("inputSchema", t.inputSchema)]

/-- One `TextContent` rendered for the `tools/call` result (line 396). -/
def contentJson (r : TextContent) : Json :=
  Json.obj [("type", Json.str r.type), ("text", Json.str r.text)]

/-- The JSON-RPC method dispatch of the POST handler (lines 345-410),
given the decoded request.  `Except.error` is an exception escaping to
the handler of line 434 (`request_data["id"]` / `["params"]["name"]`
KeyErrors, `.get` on a non-mapping, or an exception escaping
`call_tool`). -/
def dispatch (gc : GraphClient) (rd : Json) : Except String Json :=
  match rd with
  | Json.obj kvs =>
    let m := lookupKey kvs "method"
    if optIsStr m "initialize" then
      match lookupKey kvs "id" with
      | none => Except.error (quoteS "id")
      | some idv => Except.ok (Json.obj [("jsonrpc", Json.str "2.0"),
          ("id", idv), ("result", initializeResult)])
    else if optIsStr m "tools/list" then
      match lookupKey kvs "id" with
      | none => Except.error (quoteS "id")
      | some idv => Except.ok (Json.obj [("jsonrpc", Json.str "2.0"),
          ("id", idv),
          ("result", Json.obj [("tools", Json.arr (list_tools.map toolJson))])])
    else if optIsStr m "tools/call" then do
      let params ← pyGetItem (Json.obj kvs) "params"
      let nm ← pyGetItem params "name"
      let args ← pyDictGetD params "arguments" (Json.obj [])
      let result ← call_tool gc nm args
      match lookupKey kvs "id" with
      | none => Except.error (quoteS "id")
      | some idv => Except.ok (Json.obj [("jsonrpc", Json.str "2.0"),
          ("id", idv),
          ("result", Json.obj [("content", Json.arr (result.map contentJson))])])
    else
      Except.ok (Json.obj [("jsonrpc", Json.str "2.0"),
        ("id", optJson (lookupKey kvs "id")),
        ("error", Json.obj [("code", Json.num (-32601)),
          ("message", Json.str ("Method not found: " ++ pyStrOpt m))])])
  | _ => Except.error "object has no attribute get"

/-- The JSON-RPC error object of the exception handler (lines 439-446):
code `-32603`, message `str(e)`. -/
def errorResponse (idJ : Json) (msg : String) : Json :=
  Json.obj [("jsonrpc", Json.str "2.0"), ("id", idJ),
    ("error", Json.obj [("code", Json.num (-32603)), ("message", Json.str msg)])]

/-- ASGI events sent by the application. -/
inductive SendEvent where
  | start (status : Nat) (headers : List (String × String))
  | body (body : String) (more_body : Bool)
deriving BEq

/-- ASGI events received by the application. -/
inductive ReceiveMsg where
  | httpRequest (body : String) (more_body : Bool)
  | httpDisconnect

/-- The HTTP 500 response of the exception handler (lines 450-459). -/
def errorEvents (idJ : Json) (msg : String) : List SendEvent :=
  [SendEvent.start 500 [("content-type", "application/json")],
   SendEvent.body (dumps (errorResponse idJ msg)) false]

/-- Response headers of the success path (lines 420-423). -/
def jsonHeaders (rb : String) : List (String × String) :=
  [("content-type", "application/json"),
   ("content-length", toString rb.utf8ByteSize)]

/-- The POST body-reading loop (lines 316-329): accumulate `http.request`
chunks until one arrives without `more_body`; other message types are
ignored by the loop.  `none` models the handler blocking forever because
the body never completes. -/
def readBody (acc : String) : List ReceiveMsg → Option String
  | [] => none
  | ReceiveMsg.httpRequest b more :: rest =>
    if more then readBody (acc ++ b) rest else some (acc ++ b)
  | ReceiveMsg.httpDisconnect :: rest => readBody acc rest

/-- POST handling after the body is read (lines 333-462): decode with
`json.loads` (modeled by the `loads` parameter), dispatch, serialize, and
send; any exception falls to the 500 handler, whose `id` is
`request_data.get("id")` when `request_data` exists.  The empty event
list in the error-of-error case models the handler itself raising while
building the error response (`.get` on a non-mapping), which escapes the
application. -/
def postEvents (loads : String → Except String Json) (gc : GraphClient)
    (full_body : String) : List SendEvent :=
  match loads full_body with
  | Except.error e => errorEvents Json.null e
  | Except.ok rd =>
    match dispatch gc rd with
    | Except.ok response =>
      let rb := dumps response
      [SendEvent.start 200 (jsonHeaders rb), SendEvent.body rb false]
    | Except.error e =>
      match pyDictGetOpt rd "id" with
      | Except.ok idJ => errorEvents idJ e
      | Except.error _ => []

/-- The SSE response headers of the GET branch (lines 260-268). -/
def sseHeaders : List (String × String) :=
  [("content-type", "text/event-stream"),
   ("cache-control", "no-cache"),
   ("connection", "keep-alive")]

/-- The SSE endpoint frame (line 272). -/
def endpointEvent (session_id : String) : String :=
  "event: endpoint\ndata: /mcp?session_id=" ++ session_id ++ "\n\n"

/-- Two lower-case hex digits of one byte (`%02x`). -/
def hexByte (n : Nat) : String :=
  String.mk [hexDigit (n / 16 % 16), hexDigit (n % 16)]

/-- `str(uuid.uuid4())` given the 16 `os.urandom` bytes: the version
nibble of byte 6 is forced to 4 (`(b & 0x0f) | 0x40`), the two variant
bits of byte 8 to `10` (`(b & 0x3f) | 0x80`), and the result is the 32
lower-case hex digits grouped 8-4-4-4-12 by dashes. -/
def uuid4FromBytes (bytes : List Nat) : String :=
  match bytes with
  | [b0, b1, b2, b3, b4, b5, b6, b7, b8, b9, b10, b11, b12, b13, b14, b15] =>
    hexByte b0 ++ hexByte b1 ++ hexByte b2 ++ hexByte b3 ++ "-" ++
    hexByte b4 ++ hexByte b5 ++ "-" ++
    hexByte (b6 % 16 + 64) ++ hexByte b7 ++ "-" ++
    hexByte (b8 % 64 + 128) ++ hexByte b9 ++ "-" ++
    hexByte b10 ++ hexByte b11 ++ hexByte b12 ++ hexByte b13 ++
    hexByte b14 ++ hexByte b15
  | _ => ""

/-- The relevant fields of the ASGI connection scope. -/
structure Scope where
  type : String
  method : String
  path : String
  query_string : String

/-- `mcp_asgi_app` (lines 210-473): the raw ASGI application.  Non-HTTP
scopes return without sending (line 235).  The GET branch sends the SSE
headers and the single endpoint frame, then only consumes `receive`
messages until disconnect without sending anything further (lines
285-297), so its events do not depend on `incoming`.  The query-string
parsing of the POST branch (lines 303-311) only feeds logging and is
omitted. -/
def mcp_asgi_app (loads : String → Except String Json) (gc : GraphClient)
    (urandom16 : List Nat) (scope : Scope) (incoming : List ReceiveMsg) :
    List SendEvent :=
  if scope.type != "http" then []
  else if scope.path != "/mcp" then
    [SendEvent.start 404 [("content-type", "text/plain")],
     SendEvent.body "Not Found" false]
  else if scope.method == "GET" then
    [SendEvent.start 200 sseHeaders,
     SendEvent.body (endpointEvent (uuid4FromBytes urandom16)) true]
  else if scope.method == "POST" then
    match readBody "" incoming with
    | none => []
    | some full_body => postEvents loads gc full_body
  else
    [SendEvent.start 405 [("content-type", "text/plain")],
     SendEvent.body "Method Not Allowed" false]

/-- Field lookup on a JSON object (for stating properties of responses). -/
def jget (j : Json) (k : String) : Option Json :=
  match j with
  | Json.obj kvs => lookupKey kvs k
  | _ => none

/-- A success-shaped JSON-RPC response: it carries a `result` member and
no `error` member. -/
def isSuccessShaped (r : Json) : Bool :=
  (jget r "result").isSome && (jget r "error").isNone

/-- The text of the first content item of a `tools/call` result. -/
def getContentText (r : Json) : Option String :=
  match jget r "result" with
  | some res =>
    match jget res "content" with
    | some (Json.arr (c :: _)) =>
      match jget c "text" with
      | some (Json.str t) => some t
      | _ => none
    | _ => none
  | _ => none

/-- Lower-case hexadecimal digit test. -/
def isHexChar (c : Char) : Bool :=
  ("0123456789abcdef").data.contains c

/-- Consume exactly `n` hex digits, returning the remainder. -/
def hexRun : Nat → List Char → Option (List Char)
  | 0, cs => some cs
  | _ + 1, [] => none
  | n + 1, c :: cs => if isHexChar c then hexRun n cs else none

/-- A version-4, RFC-variant UUID string: 8-4-4-4-12 lower-case hex
digits separated by dashes, third group starting with `4`, fourth group
starting with one of `8`, `9`, `a`, `b`. -/
def isUuid4Shaped (s : String) : Bool :=
  match hexRun 8 s.data with
  | some ('-' :: r1) =>
    match hexRun 4 r1 with
    | some ('-' :: c3 :: r2) =>
      (c3 == '4') &&
      (match hexRun 3 r2 with
       | some ('-' :: c4 :: r3) =>
         (c4 == '8' || c4 == '9' || c4 == 'a' || c4 == 'b') &&
         (match hexRun 3 r3 with
          | some ('-' :: r4) =>
            (match hexRun 12 r4 with
             | some [] => true
             | _ => false)
          | _ => false)
       | _ => false)
    | _ => false
  | _ => false

/-- Strip an exact character prefix. -/
def dropPre : List Char → List Char → Option (List Char)
  | [], cs => some cs
  | _ :: _, [] => none
  | p :: ps, c :: cs => if c == p then dropPre ps cs else none

/-- Parse an emitted SSE frame of the shape
`event: endpoint\ndata: /mcp?session_id=<token>\n\n` and return the
token. -/
def extractSessionId (frame : String) : Option String :=
  match dropPre ("event: endpoint\ndata: /mcp?session_id=").data frame.data with
  | none => none
  | some rest =>
    match dropPre ['\n', '\n'] rest.reverse with
    | none => none
    | some revSid => some (String.mk revSid.reverse)

/-- Characters that `json.dumps` leaves unchanged. -/
def plainChar (c : Char) : Bool := escapeChar c == [c]

/-- Strings that `json.dumps` serializes verbatim (no escaping). -/
def jsonPlain (s : String) : Bool := s.data.all plainChar

/-- A directory-service stand-in whose every call fails (no claim
depends on these branches). -/
def gcUnused : GraphClient :=
  { post_user := fun _ => Except.error "unused",
    get_user := fun _ => Except.error "unused",
    patch_user := fun _ _ => Except.error "unused",
    delete_user := fun _ => Except.error "unused",
    list_users_top := fun _ => Except.error "unused" }

/-- A directory service whose user lookup reports the Graph
resource-not-found error code. -/
def gcNotFound : GraphClient :=
  { gcUnused with get_user := fun _ =>
      Except.error "APIError Code: 404 Request_ResourceNotFound No resource found" }

/-- The string carried by a JSON string value, if any. -/
def jsonAsOptStr : Json → Option String
  | Json.str s => some s
  | _ => none

/-- The user record a stub echo service reports back for a submitted
user: the submitted attributes under a fresh id. -/
def echoUser (freshId : String) (nu : NewUser) : GraphUser :=
  { id := some freshId,
    user_principal_name := jsonAsOptStr nu.user_principal_name,
    display_name := jsonAsOptStr nu.display_name,
    mail := none, job_title := none, department := none,
    account_enabled := some nu.account_enabled }

/-- A stub directory service that answers `create_user` by echoing the
submitted user back under the fresh id. -/
def gcEcho (freshId : String) : GraphClient :=
  { gcUnused with post_user := fun nu => Except.ok (echoUser freshId nu) }

/-- A `json.loads` stand-in defined by a finite table of known bodies;
everything else is a decode failure. -/
def loadsTable (table : List (String × Json)) : String → Except String Json :=
  fun s =>
    match table.find? (fun p => p.1 == s) with
    | some p => Except.ok p.2
    | none => Except.error "Expecting value: line 1 column 1 (char 0)"

theorem data_mk (l : List Char) : (String.mk l).data = l := rfl

theorem isPrefixOfAppendSelf (b c : List Char) : b.isPrefixOf (b ++ c) = true := by
  induction b with
  | nil => simp [List.isPrefixOf]
  | cons x xs ih => simp [List.isPrefixOf, ih]

theorem containsAux_of_isPrefixOf (n l : List Char) (h : n.isPrefixOf l = true) :
    containsAux n l = true := by
  cases l with
  | nil =>
    cases n with
    | nil => rfl
    | cons c cs => simp [List.isPrefixOf] at h
  | cons c cs => simp [containsAux, h]

theorem containsAux_mid (a n c : List Char) : containsAux n (a ++ (n ++ c)) = true := by
  induction a with
  | nil => exact containsAux_of_isPrefixOf n (n ++ c) (isPrefixOfAppendSelf n c)
  | cons x xs ih => simp [containsAux, ih]

theorem containsAux_right (a n b : List Char) (h : containsAux n b = true) :
    containsAux n (a ++ b) = true := by
  induction a with
  | nil => simpa using h
  | cons x xs ih => simp [containsAux, ih]

/-- Any string whose character data splits around the needle contains
the needle. -/
theorem containsSub_intro (hay n : String) (x y : List Char)
    (h : hay.data = x ++ (n.data ++ y)) : containsSub hay n = true := by
  unfold containsSub
  rw [h]
  exact containsAux_mid x n.data y

/-- Containment in a suffix survives prepending. -/
theorem containsSub_right (a b n : String) (h : containsSub b n = true) :
    containsSub (a ++ b) n = true := by
  unfold containsSub at h ⊢
  rw [String.data_append]
  exact containsAux_right a.data n.data b.data h

theorem escList_plain (l : List Char) (h : l.all plainChar = true) : escList l = l := by
  induction l with
  | nil => rfl
  | cons c cs ih =>
    rw [List.all_cons, Bool.and_eq_true] at h
    have hc : escapeChar c = [c] := by
      have hp := h.1
      unfold plainChar at hp
      exact eq_of_beq hp
    simp [escList, hc, ih h.2]

/-- `json.dumps` leaves plain strings unchanged. -/
theorem jsonEscape_plain (s : String) (h : jsonPlain s = true) : jsonEscape s = s := by
  unfold jsonEscape
  rw [escList_plain s.data h]

theorem keyMem_eq_isSome (kvs : List (String × Json)) (k : String) :
    keyMem kvs k = (lookupKey kvs k).isSome := by
  induction kvs with
  | nil => rfl
  | cons p rest ih =>
    obtain ⟨k1, v⟩ := p
    by_cases h : (k1 == k) = true
    · simp [keyMem, lookupKey, h]
    · simp only [Bool.not_eq_true] at h
      simp [keyMem, lookupKey, h, ← ih, keyMem]

theorem isHexChar_hexDigit (n : Nat) : isHexChar (hexDigit n) = true := by
  by_cases h : n < 16
  · interval_cases n <;> decide
  · unfold hexDigit
    rw [List.getD_eq_default]
    · decide
    · have hlen : ("0123456789abcdef").data.length = 16 := rfl
      omega

/-- Consuming exactly the digits of `ds` from the front succeeds and
leaves the rest. -/
theorem hexRun_digits (ds : List Nat) (rest : List Char) :
    hexRun ds.length (ds.map hexDigit ++ rest) = some rest := by
  induction ds with
  | nil => rfl
  | cons d ds ih => simp [hexRun, isHexChar_hexDigit, ih]

/-- Conditional form usable by `simp` against numeral lengths. -/
theorem hexRun_digits_of_len (n : Nat) (ds : List Nat) (rest : List Char)
    (h : ds.length = n) : hexRun n (ds.map hexDigit ++ rest) = some rest := by
  subst h
  exact hexRun_digits ds rest

theorem dropPre_append (p r : List Char) : dropPre p (p ++ r) = some r := by
  induction p with
  | nil => rfl
  | cons c cs ih => simp [dropPre, ih]

/-- The emitted endpoint frame parses back to the embedded session id. -/
theorem extractSessionId_endpoint (sid : String) :
    extractSessionId (endpointEvent sid) = some sid := by
  unfold extractSessionId endpointEvent
  have h1 : ("event: endpoint\ndata: /mcp?session_id=" ++ sid ++ "\n\n").data
      = ("event: endpoint\ndata: /mcp?session_id=").data ++ (sid.data ++ ('\n' :: '\n' :: [])) := by
    simp [String.data_append]
  rw [h1, dropPre_append]
  simp [dropPre, List.reverse_append]

/-- Any 16 `os.urandom` bytes format to a version-4, RFC-variant UUID
string under the `uuid.uuid4` bit fixing and hex grouping. -/
theorem uuid4FromBytes_shape (b0 b1 b2 b3 b4 b5 b6 b7 b8 b9 b10 b11 b12 b13 b14 b15 : Nat) :
    isUuid4Shaped (uuid4FromBytes [b0, b1, b2, b3, b4, b5, b6, b7, b8, b9, b10, b11, b12, b13, b14, b15]) = true := by
  have h6a : (b6 % 16 + 64) / 16 % 16 = 4 := by omega
  have h8a : (b8 % 64 + 128) / 16 % 16 = 8 ∨ (b8 % 64 + 128) / 16 % 16 = 9 ∨
      (b8 % 64 + 128) / 16 % 16 = 10 ∨ (b8 % 64 + 128) / 16 % 16 = 11 := by omega
  have hdata : (uuid4FromBytes [b0, b1, b2, b3, b4, b5, b6, b7, b8, b9, b10, b11, b12, b13, b14, b15]).data =
      List.map hexDigit [b0 / 16 % 16, b0 % 16, b1 / 16 % 16, b1 % 16, b2 / 16 % 16, b2 % 16,
        b3 / 16 % 16, b3 % 16] ++
      '-' :: (List.map hexDigit [b4 / 16 % 16, b4 % 16, b5 / 16 % 16, b5 % 16] ++
      '-' :: hexDigit ((b6 % 16 + 64) / 16 % 16) ::
        (List.map hexDigit [(b6 % 16 + 64) % 16, b7 / 16 % 16, b7 % 16] ++
      '-' :: hexDigit ((b8 % 64 + 128) / 16 % 16) ::
        (List.map hexDigit [(b8 % 64 + 128) % 16, b9 / 16 % 16, b9 % 16] ++
      '-' :: List.map hexDigit [b10 / 16 % 16, b10 % 16, b11 / 16 % 16, b11 % 16,
        b12 / 16 % 16, b12 % 16, b13 / 16 % 16, b13 % 16, b14 / 16 % 16, b14 % 16,
        b15 / 16 % 16, b15 % 16]))) := by
    simp [uuid4FromBytes, hexByte, String.data_append, data_mk]
  have e8 : ∀ rest, hexRun 8 (List.map hexDigit [b0 / 16 % 16, b0 % 16, b1 / 16 % 16,
      b1 % 16, b2 / 16 % 16, b2 % 16, b3 / 16 % 16, b3 % 16] ++ rest) = some rest :=
    fun rest => hexRun_digits_of_len 8 _ rest (by simp)
  have e4 : ∀ rest, hexRun 4 (List.map hexDigit [b4 / 16 % 16, b4 % 16, b5 / 16 % 16,
      b5 % 16] ++ rest) = some rest :=
    fun rest => hexRun_digits_of_len 4 _ rest (by simp)
  have e3a : ∀ rest, hexRun 3 (List.map hexDigit [(b6 % 16 + 64) % 16, b7 / 16 % 16,
      b7 % 16] ++ rest) = some rest :=
    fun rest => hexRun_digits_of_len 3 _ rest (by simp)
  have e3b : ∀ rest, hexRun 3 (List.map hexDigit [(b8 % 64 + 128) % 16, b9 / 16 % 16,
      b9 % 16] ++ rest) = some rest :=
    fun rest => hexRun_digits_of_len 3 _ rest (by simp)
  have e12 : hexRun 12 (List.map hexDigit [b10 / 16 % 16, b10 % 16, b11 / 16 % 16, b11 % 16,
      b12 / 16 % 16, b12 % 16, b13 / 16 % 16, b13 % 16, b14 / 16 % 16, b14 % 16,
      b15 / 16 % 16, b15 % 16]) = some [] := by
    have h := hexRun_digits_of_len 12 [b10 / 16 % 16, b10 % 16, b11 / 16 % 16, b11 % 16,
      b12 / 16 % 16, b12 % 16, b13 / 16 % 16, b13 % 16, b14 / 16 % 16, b14 % 16,
      b15 / 16 % 16, b15 % 16] [] (by simp)
    simpa using h
  unfold isUuid4Shaped
  rw [hdata, h6a]
  rcases h8a with h8 | h8 | h8 | h8 <;>
    rw [h8] <;>
    simp only [e8, e4, e3a, e3b, e12] <;>
    decide

/-- A `tools/call` JSON-RPC request envelope. -/
def toolCallReq (idv : Json) (params : Json) : Json :=
  Json.obj [("jsonrpc", Json.str "2.0"), ("id", idv),
    ("method", Json.str "tools/call"), ("params", params)]

/-- A `tools/call` request for `read_user` on the given identifier. -/
def readUserReq (idv : Json) (uid : String) : Json :=
  toolCallReq idv (Json.obj [("name", Json.str "read_user"),
    ("arguments", Json.obj [("userId", Json.str uid)])])

/-- The not-found diagnostic text produced by `call_tool` (line 197). -/
def notFoundText (uid : String) : String :=
  "Error: User " ++ quoteS uid ++
  " not found in Azure AD. Please verify the user ID or userPrincipalName."

/-- C1: a `tools/call` of `read_user` whose single directory lookup fails
with a resource-not-found condition yields a success-shaped JSON-RPC
response (a `result`, no `error` member), served as HTTP 200, whose
content text contains the literal supplied `userId` and a not-found
explanation. -/
theorem read_user_notfound_is_tool_result (gc : GraphClient)
    (uid e body : String) (idv : Json) (loads : String → Except String Json)
    (hgc : gc.get_user (Json.str uid) = Except.error e)
    (he : containsSub e "Request_ResourceNotFound" = true)
    (hloads : loads body = Except.ok (readUserReq idv uid)) :
    ∃ resp : Json,
      dispatch gc (readUserReq idv uid) = Except.ok resp ∧
      isSuccessShaped resp = true ∧
      getContentText resp = some (notFoundText uid) ∧
      containsSub (notFoundText uid) uid = true ∧
      containsSub (notFoundText uid) "not found" = true ∧
      postEvents loads gc body =
        [SendEvent.start 200 (jsonHeaders (dumps resp)),
         SendEvent.body (dumps resp) false] := by
  have hct : call_tool gc (Json.str "read_user") (Json.obj [("userId", Json.str uid)]) =
      Except.ok [⟨"text", notFoundText uid⟩] := by
    unfold call_tool call_tool_inner
    simp [jsonIsStr, pyGetItem, lookupKey, hgc, he, pyDictGetD, pyStr, notFoundText,
      bind, Except.bind]
  have hd : dispatch gc (readUserReq idv uid) = Except.ok (Json.obj
      [("jsonrpc", Json.str "2.0"), ("id", idv), ("result", Json.obj [("content",
        Json.arr [contentJson ⟨"text", notFoundText uid⟩])])]) := by
    unfold dispatch readUserReq toolCallReq
    simp [lookupKey, optIsStr, pyGetItem, pyDictGetD, hct, bind, Except.bind]
  refine ⟨_, hd, rfl, rfl, ?_, ?_, ?_⟩
  · exact containsSub_intro _ _ ("Error: User " ++ apos).data
      ((apos ++ " not found in Azure AD. Please verify the user ID or userPrincipalName.").data)
      (by simp [notFoundText, quoteS, String.data_append, List.append_assoc])
  · exact containsSub_right ("Error: User " ++ quoteS uid)
      " not found in Azure AD. Please verify the user ID or userPrincipalName."
      "not found" (by decide)
  · unfold postEvents
    rw [hloads]
    simp only [hd]

/-- Witness for C1 at `userId="nonexistent"` against a not-found
directory stub. -/
theorem read_user_notfound_is_tool_result_witness :
    ∃ resp : Json,
      dispatch gcNotFound (readUserReq (Json.num 1) "nonexistent") = Except.ok resp ∧
      isSuccessShaped resp = true ∧
      getContentText resp = some (notFoundText "nonexistent") ∧
      containsSub (notFoundText "nonexistent") "nonexistent" = true ∧
      containsSub (notFoundText "nonexistent") "not found" = true ∧
      postEvents (loadsTable [("b1", readUserReq (Json.num 1) "nonexistent")]) gcNotFound "b1" =
        [SendEvent.start 200 (jsonHeaders (dumps resp)),
         SendEvent.body (dumps resp) false] :=
  read_user_notfound_is_tool_result gcNotFound "nonexistent"
    "APIError Code: 404 Request_ResourceNotFound No resource found" "b1" (Json.num 1)
    (loadsTable [("b1", readUserReq (Json.num 1) "nonexistent")])
    rfl (by decide) rfl

/-- C2 (amended): an `initialize` request that carries an `id` member
always yields the fixed result payload, regardless of the rest of the
request (params may be anything or missing). -/
theorem initialize_fixed_result_with_id (gc : GraphClient)
    (kvs : List (String × Json)) (idv : Json)
    (hm : lookupKey kvs "method" = some (Json.str "initialize"))
    (hid : lookupKey kvs "id" = some idv) :
    dispatch gc (Json.obj kvs) = Except.ok (Json.obj [("jsonrpc", Json.str "2.0"),
      ("id", idv), ("result", initializeResult)]) := by
  unfold dispatch
  simp [hm, hid, optIsStr]

/-- Witness for the amended C2. -/
theorem initialize_fixed_result_with_id_witness :
    dispatch gcUnused (Json.obj [("id", Json.num 7), ("method", Json.str "initialize")]) =
      Except.ok (Json.obj [("jsonrpc", Json.str "2.0"), ("id", Json.num 7),
        ("result", initializeResult)]) :=
  initialize_fixed_result_with_id gcUnused
    [("id", Json.num 7), ("method", Json.str "initialize")] (Json.num 7) rfl rfl

/-- C2 counterexample: an `initialize` request without an `id` member
makes the dispatcher raise `KeyError` at `request_data["id"]`, so the
server answers HTTP 500 with a `-32603` error object instead of the
fixed result payload. -/
theorem initialize_missing_id_errors :
    dispatch gcUnused (Json.obj [("jsonrpc", Json.str "2.0"),
      ("method", Json.str "initialize"), ("params", Json.obj [])]) =
      Except.error (quoteS "id") ∧
    postEvents (loadsTable [("b2", Json.obj [("jsonrpc", Json.str "2.0"),
      ("method", Json.str "initialize"), ("params", Json.obj [])])]) gcUnused "b2" =
      [SendEvent.start 500 [("content-type", "application/json")],
       SendEvent.body (dumps (errorResponse Json.null (quoteS "id"))) false] ∧
    isSuccessShaped (errorResponse Json.null (quoteS "id")) = false :=
  ⟨rfl, rfl, rfl⟩

/-- C6: a `tools/call` naming none of the five known tools yields a
success-shaped response whose content text says the tool is unknown and
names it. -/
theorem unknown_tool_success_result (gc : GraphClient) (nm : String)
    (idv : Json) (pkvs : List (String × Json))
    (hname : lookupKey pkvs "name" = some (Json.str nm))
    (hnm : nm ∉ (["create_user", "read_user", "update_user", "delete_user",
      "list_users"] : List String)) :
    ∃ resp : Json,
      dispatch gc (toolCallReq idv (Json.obj pkvs)) = Except.ok resp ∧
      isSuccessShaped resp = true ∧
      getContentText resp = some ("Unknown tool: " ++ nm) ∧
      containsSub ("Unknown tool: " ++ nm) nm = true := by
  simp only [List.mem_cons, List.not_mem_nil, or_false, not_or] at hnm
  obtain ⟨h1, h2, h3, h4, h5⟩ := hnm
  have hct : ∀ args, call_tool gc (Json.str nm) args =
      Except.ok [⟨"text", "Unknown tool: " ++ nm⟩] := by
    intro args
    unfold call_tool call_tool_inner
    simp [jsonIsStr, beq_eq_false_iff_ne, h1, h2, h3, h4, h5, pyStr]
  have hd : dispatch gc (toolCallReq idv (Json.obj pkvs)) = Except.ok (Json.obj
      [("jsonrpc", Json.str "2.0"), ("id", idv), ("result", Json.obj [("content",
        Json.arr [contentJson ⟨"text", "Unknown tool: " ++ nm⟩])])]) := by
    unfold dispatch toolCallReq
    simp [lookupKey, optIsStr, pyGetItem, pyDictGetD, hname, hct, bind, Except.bind]
  refine ⟨_, hd, rfl, rfl, ?_⟩
  exact containsSub_intro _ _ ("Unknown tool: ").data [] (by simp [String.data_append])

/-- Witness for C6 at the unknown tool name `frobnicate`. -/
theorem unknown_tool_success_result_witness :
    ∃ resp : Json,
      dispatch gcUnused (toolCallReq (Json.num 3)
        (Json.obj [("name", Json.str "frobnicate")])) = Except.ok resp ∧
      isSuccessShaped resp = true ∧
      getContentText resp = some ("Unknown tool: " ++ "frobnicate") ∧
      containsSub ("Unknown tool: " ++ "frobnicate") "frobnicate" = true :=
  unknown_tool_success_result gcUnused "frobnicate" (Json.num 3)
    [("name", Json.str "frobnicate")] rfl (by decide)

/-- C9: any HTTP request whose path is not `/mcp`, whatever its method,
is answered 404 with the plain-text body `Not Found`. -/
theorem non_mcp_path_404 (loads : String → Except String Json) (gc : GraphClient)
    (ur : List Nat) (m p qs : String) (incoming : List ReceiveMsg)
    (hp : p ≠ "/mcp") :
    mcp_asgi_app loads gc ur ⟨"http", m, p, qs⟩ incoming =
      [SendEvent.start 404 [("content-type", "text/plain")],
       SendEvent.body "Not Found" false] := by
  unfold mcp_asgi_app
  simp [hp]

/-- Witness for C9 at path `/other` with method `DELETE`. -/
theorem non_mcp_path_404_witness :
    mcp_asgi_app (loadsTable []) gcUnused [] ⟨"http", "DELETE", "/other", ""⟩ [] =
      [SendEvent.start 404 [("content-type", "text/plain")],
       SendEvent.body "Not Found" false] :=
  non_mcp_path_404 (loadsTable []) gcUnused [] "DELETE" "/other" "" [] (by decide)

/-- C4: a POST to `/mcp` whose body is delivered completely and decodes
to a JSON mapping is answered with exactly one `http.response.start`
followed by exactly one final `http.response.body`. -/
theorem post_single_response (loads : String → Except String Json) (gc : GraphClient)
    (ur : List Nat) (qs b : String) (incoming : List ReceiveMsg)
    (kvs : List (String × Json))
    (hb : readBody "" incoming = some b)
    (hloads : loads b = Except.ok (Json.obj kvs)) :
    ∃ st hs bd, mcp_asgi_app loads gc ur ⟨"http", "POST", "/mcp", qs⟩ incoming =
      [SendEvent.start st hs, SendEvent.body bd false] := by
  unfold mcp_asgi_app
  simp only [hb]
  show ∃ st hs bd, postEvents loads gc b = [SendEvent.start st hs, SendEvent.body bd false]
  unfold postEvents
  rw [hloads]
  cases hdisp : dispatch gc (Json.obj kvs) with
  | ok resp =>
    exact ⟨200, jsonHeaders (dumps resp), dumps resp, by simp [hdisp]⟩
  | error e =>
    exact ⟨500, [("content-type", "application/json")],
      dumps (errorResponse ((lookupKey kvs "id").getD Json.null) e),
      by simp [hdisp, pyDictGetOpt, errorEvents]⟩

/-- Witness for C4 on a `tools/list` request. -/
theorem post_single_response_witness :
    ∃ st hs bd, mcp_asgi_app
      (loadsTable [("b4", Json.obj [("id", Json.num 9), ("method", Json.str "tools/list")])])
      gcUnused [] ⟨"http", "POST", "/mcp", ""⟩ [ReceiveMsg.httpRequest "b4" false] =
      [SendEvent.start st hs, SendEvent.body bd false] :=
  post_single_response _ gcUnused [] "" "b4" _ _ rfl rfl

/-- C3: a POST to `/mcp` whose body fails to decode, or whose dispatch
raises, is answered HTTP 500 with a JSON-RPC error object of code
`-32603` carrying the exception text, with `id` taken from the decoded
request when decoding succeeded and null otherwise. -/
theorem post_error_paths_internal_error (loads : String → Except String Json)
    (gc : GraphClient) (ur : List Nat) (qs b : String) (incoming : List ReceiveMsg)
    (hb : readBody "" incoming = some b) :
    (∀ m, loads b = Except.error m →
      mcp_asgi_app loads gc ur ⟨"http", "POST", "/mcp", qs⟩ incoming =
        [SendEvent.start 500 [("content-type", "application/json")],
         SendEvent.body (dumps (errorResponse Json.null m)) false]) ∧
    (∀ kvs m, loads b = Except.ok (Json.obj kvs) →
      dispatch gc (Json.obj kvs) = Except.error m →
      mcp_asgi_app loads gc ur ⟨"http", "POST", "/mcp", qs⟩ incoming =
        [SendEvent.start 500 [("content-type", "application/json")],
         SendEvent.body (dumps (errorResponse ((lookupKey kvs "id").getD Json.null) m))
           false]) ∧
    (∀ idJ m, jget (errorResponse idJ m) "error" =
      some (Json.obj [("code", Json.num (-32603)), ("message", Json.str m)])) := by
  refine ⟨?_, ?_, fun idJ m => rfl⟩
  · intro m hm
    unfold mcp_asgi_app
    simp only [hb]
    show postEvents loads gc b = _
    unfold postEvents
    rw [hm]
    rfl
  · intro kvs m hok hdisp
    unfold mcp_asgi_app
    simp only [hb]
    show postEvents loads gc b = _
    unfold postEvents
    rw [hok]
    simp [hdisp, pyDictGetOpt, errorEvents]

/-- Witness for C3: an undecodable body, and a `tools/call` body without
`params`, both at concrete inputs. -/
theorem post_error_paths_internal_error_witness :
    (mcp_asgi_app (loadsTable [("b5", Json.obj [("id", Json.num 2),
        ("method", Json.str "tools/call")])]) gcUnused [] ⟨"http", "POST", "/mcp", ""⟩
        [ReceiveMsg.httpRequest "oops" false] =
      [SendEvent.start 500 [("content-type", "application/json")],
       SendEvent.body (dumps (errorResponse Json.null
         "Expecting value: line 1 column 1 (char 0)")) false]) ∧
    (mcp_asgi_app (loadsTable [("b5", Json.obj [("id", Json.num 2),
        ("method", Json.str "tools/call")])]) gcUnused [] ⟨"http", "POST", "/mcp", ""⟩
        [ReceiveMsg.httpRequest "b5" false] =
      [SendEvent.start 500 [("content-type", "application/json")],
       SendEvent.body (dumps (errorResponse (Json.num 2) (quoteS "params"))) false]) :=
  ⟨(post_error_paths_internal_error _ gcUnused [] "" "oops"
      [ReceiveMsg.httpRequest "oops" false] rfl).1
      "Expecting value: line 1 column 1 (char 0)" rfl,
   (post_error_paths_internal_error _ gcUnused [] "" "b5"
      [ReceiveMsg.httpRequest "b5" false] rfl).2.1
      [("id", Json.num 2), ("method", Json.str "tools/call")] (quoteS "params") rfl rfl⟩

/-- C5: a GET to `/mcp` opens the SSE stream and emits exactly one
endpoint frame of the exact byte shape
`event: endpoint\ndata: /mcp?session_id=<uuid>\n\n` — and nothing further
regardless of what the connection receives — where the embedded
session id is recoverable from the frame and is UUID4-shaped for every
possible 16-byte randomness. -/
theorem get_sse_single_endpoint_frame (loads : String → Except String Json)
    (gc : GraphClient) (qs : String) (incoming : List ReceiveMsg)
    (b0 b1 b2 b3 b4 b5 b6 b7 b8 b9 b10 b11 b12 b13 b14 b15 : Nat) :
    mcp_asgi_app loads gc [b0, b1, b2, b3, b4, b5, b6, b7, b8, b9, b10, b11, b12,
      b13, b14, b15] ⟨"http", "GET", "/mcp", qs⟩ incoming =
      [SendEvent.start 200 sseHeaders,
       SendEvent.body (endpointEvent (uuid4FromBytes [b0, b1, b2, b3, b4, b5, b6, b7,
         b8, b9, b10, b11, b12, b13, b14, b15])) true] ∧
    extractSessionId (endpointEvent (uuid4FromBytes [b0, b1, b2, b3, b4, b5, b6, b7,
      b8, b9, b10, b11, b12, b13, b14, b15])) =
      some (uuid4FromBytes [b0, b1, b2, b3, b4, b5, b6, b7, b8, b9, b10, b11, b12,
        b13, b14, b15]) ∧
    isUuid4Shaped (uuid4FromBytes [b0, b1, b2, b3, b4, b5, b6, b7, b8, b9, b10, b11,
      b12, b13, b14, b15]) = true :=
  ⟨rfl, extractSessionId_endpoint _,
   uuid4FromBytes_shape b0 b1 b2 b3 b4 b5 b6 b7 b8 b9 b10 b11 b12 b13 b14 b15⟩

/-- C7: the update object `update_user` sends to the directory service
carries exactly the optional fields present as keys in the arguments
(each present field with its argument value, each absent field unset),
and the tool call patches with precisely that object. -/
theorem update_user_partial_fields (args : List (String × Json)) :
    ((updateFromArgs args).display_name = lookupKey args "displayName") ∧
    ((updateFromArgs args).job_title = lookupKey args "jobTitle") ∧
    ((updateFromArgs args).department = lookupKey args "department") ∧
    (keyMem args "displayName" = false → (updateFromArgs args).display_name = none) ∧
    (keyMem args "jobTitle" = false → (updateFromArgs args).job_title = none) ∧
    (keyMem args "department" = false → (updateFromArgs args).department = none) ∧
    (∀ (gc : GraphClient) (uidv : Json), lookupKey args "userId" = some uidv →
      gc.patch_user uidv (updateFromArgs args) = Except.ok () →
      call_tool gc (Json.str "update_user") (Json.obj args) =
        Except.ok [⟨"text", "User " ++ pyStr uidv ++ " updated successfully"⟩]) := by
  have hnone : ∀ k, keyMem args k = false → lookupKey args k = none := by
    intro k h
    rw [keyMem_eq_isSome] at h
    exact Option.not_isSome_iff_eq_none.mp (by simp [h])
  have hfields : ((updateFromArgs args).display_name = lookupKey args "displayName") ∧
      ((updateFromArgs args).job_title = lookupKey args "jobTitle") ∧
      ((updateFromArgs args).department = lookupKey args "department") := by
    unfold updateFromArgs
    by_cases h1 : keyMem args "displayName" = true <;>
      by_cases h2 : keyMem args "jobTitle" = true <;>
        by_cases h3 : keyMem args "department" = true <;>
          simp only [Bool.not_eq_true] at h1 h2 h3 <;>
          simp [h1, h2, h3, hnone]
  refine ⟨hfields.1, hfields.2.1, hfields.2.2, ?_, ?_, ?_, ?_⟩
  · intro h
    rw [hfields.1]
    exact hnone _ h
  · intro h
    rw [hfields.2.1]
    exact hnone _ h
  · intro h
    rw [hfields.2.2]
    exact hnone _ h
  · intro gc uidv huid hpatch
    unfold call_tool call_tool_inner
    simp [jsonIsStr, asObj, pyGetItem, huid, hpatch, bind, Except.bind]

/-- A directory service accepting any patch. -/
def gcPatchOk : GraphClient :=
  { gcUnused with patch_user := fun _ _ => Except.ok () }

/-- Witness for C7: `displayName` and `department` present, `jobTitle`
absent. -/
theorem update_user_partial_fields_witness :
    ((updateFromArgs [("userId", Json.str "u1"), ("displayName", Json.str "N"),
      ("department", Json.str "D")]).display_name =
      lookupKey [("userId", Json.str "u1"), ("displayName", Json.str "N"),
        ("department", Json.str "D")] "displayName") ∧
    ((updateFromArgs [("userId", Json.str "u1"), ("displayName", Json.str "N"),
      ("department", Json.str "D")]).job_title = none) ∧
    (call_tool gcPatchOk (Json.str "update_user") (Json.obj [("userId", Json.str "u1"),
      ("displayName", Json.str "N"), ("department", Json.str "D")]) =
      Except.ok [⟨"text", "User " ++ pyStr (Json.str "u1") ++ " updated successfully"⟩]) :=
  ⟨(update_user_partial_fields _).1,
   (update_user_partial_fields [("userId", Json.str "u1"), ("displayName", Json.str "N"),
     ("department", Json.str "D")]).2.2.2.2.1 rfl,
   (update_user_partial_fields _).2.2.2.2.2.2 gcPatchOk (Json.str "u1") rfl rfl⟩

/-- The `msgraph` `User` object `create_user` submits for these argument
values (lines 114-123). -/
def submittedUser (upn dn mn pw : String) : NewUser :=
  { user_principal_name := Json.str upn, display_name := Json.str dn,
    mail_nickname := Json.str mn, account_enabled := true,
    password := Json.str pw, force_change_password_next_sign_in := true }

/-- A complete `tools/call` request for `create_user`. -/
def createUserReq (idv : Json) (upn dn mn pw : String) : Json :=
  toolCallReq idv (Json.obj [("name", Json.str "create_user"),
    ("arguments", Json.obj [("userPrincipalName", Json.str upn),
      ("displayName", Json.str dn), ("mailNickname", Json.str mn),
      ("password", Json.str pw)])])

/-- The success text `create_user` produces for an echoed user (line
128). -/
def createdText (fid upn dn : String) : String :=
  "User created successfully: " ++ fid ++ "\n" ++
  dumpsInd 0 (Json.obj [("id", Json.str fid), ("userPrincipalName", Json.str upn),
    ("displayName", Json.str dn)])

/-- C8: a `create_user` call carrying all four required fields, against
a stub directory service that echoes the submitted user back under a
fresh id, yields a success response whose decoded content text carries
exactly that fresh id and the submitted display name. -/
theorem create_user_roundtrip (gc : GraphClient) (fid upn dn mn pw body : String)
    (idv : Json) (loads : String → Except String Json)
    (hstub : gc.post_user (submittedUser upn dn mn pw) =
      Except.ok (echoUser fid (submittedUser upn dn mn pw)))
    (hdn : jsonPlain dn = true)
    (hloads : loads body = Except.ok (createUserReq idv upn dn mn pw)) :
    ∃ resp : Json,
      dispatch gc (createUserReq idv upn dn mn pw) = Except.ok resp ∧
      isSuccessShaped resp = true ∧
      getContentText resp = some (createdText fid upn dn) ∧
      containsSub (createdText fid upn dn) fid = true ∧
      containsSub (createdText fid upn dn) dn = true ∧
      postEvents loads gc body =
        [SendEvent.start 200 (jsonHeaders (dumps resp)),
         SendEvent.body (dumps resp) false] := by
  have hct : call_tool gc (Json.str "create_user")
      (Json.obj [("userPrincipalName", Json.str upn), ("displayName", Json.str dn),
        ("mailNickname", Json.str mn), ("password", Json.str pw)]) =
      Except.ok [⟨"text", createdText fid upn dn⟩] := by
    unfold call_tool call_tool_inner
    simp only [submittedUser] at hstub
    simp [jsonIsStr, pyGetItem, lookupKey, hstub, bind, Except.bind,
      echoUser, jsonAsOptStr, pyStrOptS, optStrJson, createdText]
  have hd : dispatch gc (createUserReq idv upn dn mn pw) = Except.ok (Json.obj
      [("jsonrpc", Json.str "2.0"), ("id", idv), ("result", Json.obj [("content",
        Json.arr [contentJson ⟨"text", createdText fid upn dn⟩])])]) := by
    unfold dispatch createUserReq toolCallReq
    simp [lookupKey, optIsStr, pyGetItem, pyDictGetD, hct, bind, Except.bind]
  refine ⟨_, hd, rfl, rfl, ?_, ?_, ?_⟩
  · refine containsSub_intro _ _ ("User created successfully: ").data
      (("\n" ++ dumpsInd 0 (Json.obj [("id", Json.str fid),
        ("userPrincipalName", Json.str upn), ("displayName", Json.str dn)])).data) ?_
    simp [createdText, String.data_append, List.append_assoc]
  · have hesc : jsonEscape dn = dn := jsonEscape_plain dn hdn
    refine containsSub_intro _ _
      (("User created successfully: " ++ fid ++ "\n" ++ "\x7b\n" ++ spaces 2 ++ dq ++
        jsonEscape "id" ++ dq ++ ": " ++ dq ++ jsonEscape fid ++ dq ++ ",\n" ++
        spaces 2 ++ dq ++ jsonEscape "userPrincipalName" ++ dq ++ ": " ++ dq ++
        jsonEscape upn ++ dq ++ ",\n" ++ spaces 2 ++ dq ++ jsonEscape "displayName" ++
        dq ++ ": " ++ dq).data)
      ((dq ++ "\n" ++ spaces 0 ++ "\x7d").data) ?_
    simp [createdText, dumpsInd, dumpsIndObj, dumps, hesc, String.data_append,
      List.append_assoc]
  · unfold postEvents
    rw [hloads]
    simp only [hd]

/-- Witness for C8 at concrete field values against the echo stub. -/
theorem create_user_roundtrip_witness :
    ∃ resp : Json,
      dispatch (gcEcho "fresh-id-1") (createUserReq (Json.num 4) "jo@x.com" "Jo Doe"
        "jo" "pw123") = Except.ok resp ∧
      isSuccessShaped resp = true ∧
      getContentText resp = some (createdText "fresh-id-1" "jo@x.com" "Jo Doe") ∧
      containsSub (createdText "fresh-id-1" "jo@x.com" "Jo Doe") "fresh-id-1" = true ∧
      containsSub (createdText "fresh-id-1" "jo@x.com" "Jo Doe") "Jo Doe" = true ∧
      postEvents (loadsTable [("b7", createUserReq (Json.num 4) "jo@x.com" "Jo Doe"
        "jo" "pw123")]) (gcEcho "fresh-id-1") "b7" =
        [SendEvent.start 200 (jsonHeaders (dumps resp)),
         SendEvent.body (dumps resp) false] :=
  create_user_roundtrip (gcEcho "fresh-id-1") "fresh-id-1" "jo@x.com" "Jo Doe" "jo"
    "pw123" "b7" (Json.num 4)
    (loadsTable [("b7", createUserReq (Json.num 4) "jo@x.com" "Jo Doe" "jo" "pw123")])
    rfl (by decide) rfl

/-- C10: in a `tools/call` request, a missing `params.arguments` is
tolerated — dispatch behaves exactly as with an explicit empty mapping,
proceeding to the named tool — while a missing `params.name` raises
`KeyError` so the server answers HTTP 500 with a `-32603` error instead
of any tool result. -/
theorem tools_call_missing_keys (gc : GraphClient) (idv nmJ : Json) :
    (dispatch gc (toolCallReq idv (Json.obj [("name", nmJ)])) =
      dispatch gc (toolCallReq idv (Json.obj [("name", nmJ),
        ("arguments", Json.obj [])]))) ∧
    (∀ pkvs : List (String × Json), lookupKey pkvs "name" = none →
      dispatch gc (toolCallReq idv (Json.obj pkvs)) = Except.error (quoteS "name") ∧
      ∀ (loads : String → Except String Json) (b qs : String) (ur : List Nat)
        (incoming : List ReceiveMsg), readBody "" incoming = some b →
        loads b = Except.ok (toolCallReq idv (Json.obj pkvs)) →
        mcp_asgi_app loads gc ur ⟨"http", "POST", "/mcp", qs⟩ incoming =
          [SendEvent.start 500 [("content-type", "application/json")],
           SendEvent.body (dumps (errorResponse idv (quoteS "name"))) false]) := by
  refine ⟨rfl, ?_⟩
  intro pkvs hname
  have hdisp : dispatch gc (toolCallReq idv (Json.obj pkvs)) =
      Except.error (quoteS "name") := by
    unfold dispatch toolCallReq
    simp [lookupKey, optIsStr, pyGetItem, hname, bind, Except.bind]
  refine ⟨hdisp, ?_⟩
  intro loads b qs ur incoming hbody hloads
  unfold mcp_asgi_app
  simp only [hbody]
  show postEvents loads gc b = _
  unfold postEvents
  rw [hloads]
  simp only [hdisp]
  simp [pyDictGetOpt, errorEvents, toolCallReq, lookupKey]

/-- Witness for C10: `read_user` without `arguments`, and a params
mapping without `name`. -/
theorem tools_call_missing_keys_witness :
    (dispatch gcUnused (toolCallReq (Json.num 5) (Json.obj [("name",
      Json.str "read_user")])) =
      dispatch gcUnused (toolCallReq (Json.num 5) (Json.obj [("name",
        Json.str "read_user"), ("arguments", Json.obj [])]))) ∧
    (dispatch gcUnused (toolCallReq (Json.num 5) (Json.obj [("arguments",
      Json.obj [])])) = Except.error (quoteS "name")) ∧
    (mcp_asgi_app (loadsTable [("b6", toolCallReq (Json.num 5) (Json.obj [("arguments",
        Json.obj [])]))]) gcUnused [] ⟨"http", "POST", "/mcp", ""⟩
        [ReceiveMsg.httpRequest "b6" false] =
      [SendEvent.start 500 [("content-type", "application/json")],
       SendEvent.body (dumps (errorResponse (Json.num 5) (quoteS "name"))) false]) :=
  ⟨(tools_call_missing_keys gcUnused (Json.num 5) (Json.str "read_user")).1,
   ((tools_call_missing_keys gcUnused (Json.num 5) (Json.str "read_user")).2
     [("arguments", Json.obj [])] rfl).1,
   ((tools_call_missing_keys gcUnused (Json.num 5) (Json.str "read_user")).2
     [("arguments", Json.obj [])] rfl).2 _ "b6" "" []
     [ReceiveMsg.httpRequest "b6" false] rfl rfl⟩

/-- C3 counterexample: a POST body that is valid JSON but not a mapping
(here the JSON string `"x"`).  `request_data.get("method")` raises during
dispatch, and the 500 handler then raises again at `request_data.get("id")`
(line 441) while building the error response, so the handler sends no
response at all — in particular no HTTP 500 with a `-32603` error object. -/
theorem post_error_nonmapping_no_response :
    dispatch gcUnused (Json.str "x") = Except.error "object has no attribute get" ∧
    mcp_asgi_app (loadsTable [("b8", Json.str "x")]) gcUnused []
      ⟨"http", "POST", "/mcp", ""⟩ [ReceiveMsg.httpRequest "b8" false] = [] ∧
    (∀ (hs : List (String × String)) (bd : String),
      mcp_asgi_app (loadsTable [("b8", Json.str "x")]) gcUnused []
        ⟨"http", "POST", "/mcp", ""⟩ [ReceiveMsg.httpRequest "b8" false] ≠
        [SendEvent.start 500 hs, SendEvent.body bd false]) := by
  refine ⟨rfl, rfl, fun hs bd h => ?_⟩
  have h2 : ([] : List SendEvent) = [SendEvent.start 500 hs, SendEvent.body bd false] := h
  exact List.noConfusion h2
